import Mathlib

/-!
Verification of the derived-state engine of `src/Server/yt_server.py`
(Trailers tvOS relay server): the resolution cache, the stream-resolution
flow, the event log, the watchlist projection and the analytics
aggregator/exporter are shallowly embedded as Lean functions and their
specified properties are proved or refuted.

Modelling conventions:
- A Python `dict` is an association list with insertion-order semantics
  (updating an existing key keeps its position; a new key is appended at
  the end), exactly the iteration order Python guarantees.
- Wall-clock instants are integers (seconds); `timedelta(hours=1)` is 3600.
- A Python value that may be a JSON string or absent is `Option String`;
  Python truthiness of such a value (`not x`) is `falsyS` below.
- `media_id` values are represented by the string the f-string interpolation
  renders them to, since every use in the code is inside an f-string key.
-/

/-- One record of the watchlist action log (`data/watchlist.jsonl`), as
written by `log_watchlist_action`: the action, the device, the media key
fields and the envelope timestamp. -/
structure WRecord where
  device_id : String
  media_type : String
  media_id : String
  media_title : Option String
  action : String
  timestamp : String
  deriving Repr, DecidableEq

/-- Python-dict lookup on an association list: first binding for the key. -/
def dictGet {α : Type} (items : List (String × α)) (k : String) : Option α :=
  match items with
  | [] => none
  | (k', v) :: rest => if k' = k then some v else dictGet rest k

/-- Python-dict assignment `items[k] = v`: update in place if the key is
present, otherwise append the new binding at the end. -/
def dictSet {α : Type} (items : List (String × α)) (k : String) (v : α) :
    List (String × α) :=
  match items with
  | [] => [(k, v)]
  | (k', v') :: rest =>
      if k' = k then (k, v) :: rest else (k', v') :: dictSet rest k v

/-- Python `items.pop(k, None)`: remove the binding for `k` when present,
leave the dict unchanged when absent (never an error). -/
def dictPop {α : Type} (items : List (String × α)) (k : String) :
    List (String × α) :=
  match items with
  | [] => []
  | (k', v') :: rest =>
      if k' = k then rest else (k', v') :: dictPop rest k

/-- The media key built by the code: `f"{entry['media_type']}_{entry['media_id']}"`. -/
def mediaKey (r : WRecord) : String :=
  r.media_type ++ "_" ++ r.media_id

/-- The body of the replay loop of `get_watchlist_items`, applied to one
log record: records for other devices are skipped; an `add` stores the
record under its media key, a `remove` pops the key, anything else is
ignored. -/
def applyRecord (device_id : String) (items : List (String × WRecord))
    (r : WRecord) : List (String × WRecord) :=
  if r.device_id = device_id then
    let key := mediaKey r
    if r.action = "add" then dictSet items key r
    else if r.action = "remove" then dictPop items key
    else items
  else items

/-- `get_watchlist_items(device_id)`: replay the whole watchlist log in
file order starting from an empty dict. -/
def get_watchlist_items (device_id : String) (log : List WRecord) :
    List (String × WRecord) :=
  log.foldl (applyRecord device_id) []

/-- The fold step the specification describes, on records already known to
belong to the device: `add` sets `items[key] = record`, `remove` deletes
`items[key]` (no-op when absent). -/
def watchlistStep (items : List (String × WRecord)) (r : WRecord) :
    List (String × WRecord) :=
  if r.action = "add" then dictSet items (mediaKey r) r
  else if r.action = "remove" then dictPop items (mediaKey r)
  else items

/-- The specification's projection: left fold of `watchlistStep`, in append
order, over the records whose `device_id` matches. -/
def watchlistFold (device_id : String) (log : List WRecord) :
    List (String × WRecord) :=
  (log.filter (fun r => r.device_id == device_id)).foldl watchlistStep []

/-- `watchlist_check` membership test: `key in get_watchlist_items(device_id)`
for `key = f"{media_type}_{media_id}"`. -/
def watchlist_check (device_id media_type media_id : String)
    (log : List WRecord) : Bool :=
  (dictGet (get_watchlist_items device_id log)
    (media_type ++ "_" ++ media_id)).isSome

/-- One row of the `/watchlist/list` response. -/
structure WatchlistItem where
  media_id : String
  media_type : String
  media_title : Option String
  added_at : String
  deriving Repr, DecidableEq

/-- `watchlist_list`: the values of `get_watchlist_items(device_id)` in
dict iteration order, each reformatted for the response. -/
def watchlist_list (device_id : String) (log : List WRecord) :
    List WatchlistItem :=
  (get_watchlist_items device_id log).map (fun p =>
    { media_id := p.2.media_id
      media_type := p.2.media_type
      media_title := p.2.media_title
      added_at := p.2.timestamp })

theorem dictGet_dictSet_self {α : Type} (items : List (String × α))
    (k : String) (v : α) : dictGet (dictSet items k v) k = some v := by
  induction items with
  | nil => simp [dictGet, dictSet]
  | cons hd tl ih =>
      obtain ⟨k', v'⟩ := hd
      by_cases h : k' = k
      · simp [dictGet, dictSet, h]
      · simp [dictGet, dictSet, h, ih]

theorem dictPop_of_absent {α : Type} (items : List (String × α))
    (k : String) (h : dictGet items k = none) : dictPop items k = items := by
  induction items with
  | nil => simp [dictPop]
  | cons hd tl ih =>
      obtain ⟨k', v'⟩ := hd
      by_cases hk : k' = k
      · simp [dictGet, hk] at h
      · simp [dictGet, hk] at h
        simp [dictPop, hk, ih h]

theorem foldl_filter_guard {α β : Type} (p : α → Bool) (f : β → α → β)
    (l : List α) (init : β) :
    (l.filter p).foldl f init =
      l.foldl (fun acc x => if p x then f acc x else acc) init := by
  induction l generalizing init with
  | nil => rfl
  | cons hd tl ih =>
      by_cases h : p hd
      · simp [List.filter, h, ih]
      · simp [List.filter, h, ih]

theorem applyRecord_eq_guarded_step (device_id : String)
    (items : List (String × WRecord)) (r : WRecord) :
    applyRecord device_id items r =
      if r.device_id == device_id then watchlistStep items r else items := by
  by_cases h : r.device_id = device_id
  · simp [applyRecord, watchlistStep, h]
  · simp [applyRecord, h]

/-- The replay of `get_watchlist_items` computes exactly the fold of the
spec's step over the device-filtered log. -/
theorem get_watchlist_items_eq_fold (device_id : String)
    (log : List WRecord) :
    get_watchlist_items device_id log = watchlistFold device_id log := by
  unfold get_watchlist_items watchlistFold
  rw [foldl_filter_guard]
  congr 1
  funext acc r
  exact applyRecord_eq_guarded_step device_id acc r

/-- The successful response dict built by `get_video_url`
(`response_data`), with every field the code fills in. `quality` is
`info.get("height", "unknown")`, so `none` stands for the string
`"unknown"` fallback. -/
structure RespData where
  url : String
  title : String
  duration : Option Int
  thumbnail : Option String
  quality : Option Int
  cache_hit : Bool
  channel : Option String
  view_count : Option Int
  like_count : Option Int
  upload_date : Option String
  categories : List String
  tags : List String
  deriving Repr, DecidableEq

/-- The module-level `url_cache` dict: cache key to
`(datetime.now(), response_data)`. -/
abbrev UrlCache := List (String × (Int × RespData))

/-- `CACHE_DURATION = timedelta(hours=1)`, in seconds. -/
def CACHE_DURATION : Int := 3600

/-- The cache key the code computes: `f"{video_id}_{quality}"`. -/
def cache_key (video_id quality : String) : String :=
  video_id ++ "_" ++ quality

/-- The cache write of `get_video_url`:
`url_cache[cache_key] = (datetime.now(), response_data)`. -/
def cache_put (c : UrlCache) (k : String) (now : Int) (v : RespData) :
    UrlCache :=
  dictSet c k (now, v)

/-- The cache read discipline of `get_video_url` lines 120-124: an entry is
returned only when it exists and `now - cached_time < CACHE_DURATION`;
a missing or expired entry is absent. -/
def cache_get (c : UrlCache) (k : String) (now : Int) : Option RespData :=
  match dictGet c k with
  | some (t, d) => if now - t < CACHE_DURATION then some d else none
  | none => none

/-- One entry of `info["requested_formats"]` as the code reads it:
`acodec`, `vcodec` and `url` may each be missing. -/
structure Fmt where
  acodec : Option String
  vcodec : Option String
  url : Option String
  deriving Repr, DecidableEq

/-- Python truthiness test `not x` for a string-or-absent value: true on
`None` and on the empty string. -/
def falsyS : Option String → Bool
  | none => true
  | some s => s = ""

/-- The code's audio+video test: `fmt.get("acodec") != "none" and
fmt.get("vcodec") != "none"` (an absent codec field also passes). -/
def hasAV (f : Fmt) : Bool :=
  !(f.acodec = some "none" : Bool) && !(f.vcodec = some "none" : Bool)

/-- The parsed yt-dlp JSON payload (`info`), restricted to the keys the
code reads. -/
structure Info where
  url : Option String
  requested_formats : List Fmt
  title : Option String
  duration : Option Int
  thumbnail : Option String
  height : Option Int
  channel : Option String
  view_count : Option Int
  like_count : Option Int
  upload_date : Option String
  categories : List String
  tags : List String
  deriving Repr, DecidableEq

/-- URL selection of `get_video_url` lines 164-175: take `info["url"]`;
when falsy and `requested_formats` is nonempty, take the url of the first
format passing `hasAV`, and when that is still falsy fall back to
`formats[0].get("url")`. -/
def pickUrl (info : Info) : Option String :=
  let u0 := info.url
  if falsyS u0 then
    match info.requested_formats with
    | [] => u0
    | f0 :: rest =>
        let uav := match (f0 :: rest).find? hasAV with
          | some fa => fa.url
          | none => u0
        if falsyS uav then f0.url else uav
  else u0

/-- The selection rule as the specification words it: the url of the first
candidate passing the audio+video test when one exists, else the url of
the first candidate. Stated for comparison with `pickUrl`. -/
def pickUrl_specWords (info : Info) : Option String :=
  if falsyS info.url then
    match info.requested_formats.find? hasAV with
    | some fa => fa.url
    | none => info.requested_formats.head?.bind Fmt.url
  else info.url

/-- Outcome of one invocation of the external yt-dlp process, as
`get_video_url` distinguishes them: nonzero exit with (stripped) stderr,
a 30-second timeout, unparseable stdout, or a parsed `Info` payload. -/
inductive AdapterOutcome
  | procFail (stderr : String)
  | timedOut
  | badJson
  | parsed (info : Info)
  deriving Repr, DecidableEq

/-- Return value of `get_video_url`: the error dict or the response dict. -/
inductive VideoResult
  | failed (msg : String)
  | ok (resp : RespData)
  deriving Repr, DecidableEq

def VideoResult.isFailed : VideoResult → Bool
  | .failed _ => true
  | .ok _ => false

/-- State-passing result of `get_video_url`: the returned dict, the
`url_cache` after the call, and whether the external resolver process was
invoked. -/
structure GVU where
  result : VideoResult
  cache : UrlCache
  adapterCalled : Bool
  deriving Repr, DecidableEq

/-- `format_selector` computed from the quality preference
(lines 129-138). -/
def format_selector (quality : String) : String :=
  if quality = "best" then "best[ext=mp4]/best"
  else if quality = "1080" then
    "best[height<=1080][ext=mp4]/best[height<=1080]/best"
  else if quality = "720" then
    "best[height<=720][ext=mp4]/best[height<=720]/best"
  else if quality = "480" then
    "best[height<=480][ext=mp4]/best[height<=480]/best"
  else "worst[ext=mp4]/worst"

/-- The resolver branch of `get_video_url` (cache miss or expired entry):
map each adapter outcome to the code's error dict, or select a url, build
`response_data` and write it to the cache. -/
def resolveFresh (c : UrlCache) (now : Int) (key : String)
    (adapter : AdapterOutcome) : GVU :=
  match adapter with
  | .procFail stderr =>
      { result := .failed (if stderr = "" then "Unknown error" else stderr)
        cache := c, adapterCalled := true }
  | .timedOut =>
      { result := .failed "Request timed out", cache := c
        adapterCalled := true }
  | .badJson =>
      { result := .failed "Failed to parse video info", cache := c
        adapterCalled := true }
  | .parsed info =>
      let u := pickUrl info
      if falsyS u then
        { result := .failed "No video URL found", cache := c
          adapterCalled := true }
      else
        let resp : RespData :=
          { url := u.getD ""
            title := info.title.getD "Unknown"
            duration := info.duration
            thumbnail := info.thumbnail
            quality := info.height
            cache_hit := false
            channel := info.channel
            view_count := info.view_count
            like_count := info.like_count
            upload_date := info.upload_date
            categories := info.categories
            tags := info.tags }
        { result := .ok resp, cache := cache_put c key now resp
          adapterCalled := true }

/-- `get_video_url(video_id, quality)`: serve a fresh cache entry with
`cache_hit` retagged true; otherwise (missing or expired entry) run the
resolver branch. -/
def get_video_url (c : UrlCache) (now : Int) (video_id quality : String)
    (adapter : AdapterOutcome) : GVU :=
  let key := cache_key video_id quality
  match dictGet c key with
  | some (t, data) =>
      if now - t < CACHE_DURATION then
        { result := .ok { data with cache_hit := true }, cache := c
          adapterCalled := false }
      else resolveFresh c now key adapter
  | none => resolveFresh c now key adapter

/-- An analytics record appended by the `stream` route, restricted to the
fields the route computes itself (the remaining fields echo request
metadata from the transport layer). -/
structure StreamEvent where
  event_type : String
  video_id : String
  quality_requested : String
  errMsg : Option String
  deriving Repr, DecidableEq

/-- Response of the `stream` route. -/
inductive StreamResp
  | invalidId
  | failed (msg : String)
  | ok (resp : RespData)
  deriving Repr, DecidableEq

/-- State-passing result of the `stream` route: the response, the cache
after the call, whether the resolver was invoked, and the analytics
records appended. -/
structure StreamOutcome where
  resp : StreamResp
  cache : UrlCache
  adapterCalled : Bool
  logAppends : List StreamEvent
  deriving Repr, DecidableEq

/-- The `stream` route: reject a `video_id` of length outside `[5, 20]`
with `"Invalid video ID"` (400) before calling `get_video_url`; otherwise
resolve, then append one `stream_error` or `stream_request` analytics
record. (`not video_id` in the code is subsumed: an empty id has length
0 < 5.) -/
def stream (video_id quality : String) (c : UrlCache) (now : Int)
    (adapter : AdapterOutcome) : StreamOutcome :=
  if video_id.length < 5 || video_id.length > 20 then
    { resp := .invalidId, cache := c, adapterCalled := false
      logAppends := [] }
  else
    let g := get_video_url c now video_id quality adapter
    match g.result with
    | .failed msg =>
        { resp := .failed msg, cache := g.cache
          adapterCalled := g.adapterCalled
          logAppends := [{ event_type := "stream_error"
                           video_id := video_id
                           quality_requested := quality
                           errMsg := some msg }] }
    | .ok r =>
        { resp := .ok r, cache := g.cache
          adapterCalled := g.adapterCalled
          logAppends := [{ event_type := "stream_request"
                           video_id := video_id
                           quality_requested := quality
                           errMsg := none }] }

/-- Engagement classification of `log_event` (lines 348-358): the first
matching threshold wins. -/
def engagement_level (p : ℚ) : String :=
  if 90 ≤ p then "completed"
  else if 50 ≤ p then "high"
  else if 25 ≤ p then "medium"
  else if 10 ≤ p then "low"
  else "skipped"

/-- Python truthiness of a numeric-or-absent JSON value: `None`, a missing
key and `0` are falsy, every other number is truthy. -/
def truthyQ : Option ℚ → Bool
  | none => false
  | some x => !(x = 0 : Bool)

/-- Python `round(x, 2)` modelled on rationals: scale by 100 and round,
halves to the even integer (Python's round-half-even). -/
def round2 (x : ℚ) : ℚ :=
  let y := x * 100
  let n := ⌊y⌋
  let r :=
    if y - n < 1 / 2 then n
    else if 1 / 2 < y - n then n + 1
    else if n % 2 = 0 then n else n + 1
  (r : ℚ) / 100

/-- The numeric fields of a `/analytics/event` body that `log_event`
computes with; `none` is a missing key (for `event`, also JSON null, which
`data.get` maps to the same default). -/
structure PlaybackPayload where
  event : Option String
  video_duration : Option ℚ
  watch_time : Option ℚ
  watch_percentage : Option ℚ
  deriving Repr, DecidableEq

/-- The fields `log_event` adds to the payload before appending it, plus
the route's response status. -/
structure LoggedPlayback where
  event_type : String
  completion_rate : Option ℚ
  engagement_level : String
  status : String
  deriving Repr, DecidableEq

/-- The `/analytics/event` route body: read `event` (default "unknown"),
add `completion_rate` only when `video_duration` and `watch_time` are both
truthy, classify `watch_percentage` (default 0), log, answer "logged". -/
def log_event (p : PlaybackPayload) : LoggedPlayback :=
  { event_type := p.event.getD "unknown"
    completion_rate :=
      if truthyQ p.video_duration && truthyQ p.watch_time then
        some (round2 (p.watch_time.getD 0 / p.video_duration.getD 0 * 100))
      else none
    engagement_level := engagement_level (p.watch_percentage.getD 0)
    status := "logged" }

/-- An analytics event written by `log_analytics`: the envelope fields it
adds plus the caller-supplied payload (represented as a key-value list,
like the `**data` splat). -/
structure AnalyticsEvent where
  timestamp : String
  timestamp_unix : Int
  event_type : String
  day_of_week : String
  hour_of_day : Int
  source_ip : Option String
  payload : List (String × String)
  deriving Repr, DecidableEq

/-- One line of `viewing_log.jsonl` as replay sees it: `some e` is a line
that `json.loads` decodes back to the event `e` that `json.dumps` wrote
(the stdlib JSON codec is an external collaborator and round-trips the
event dicts the server writes); `none` is a malformed line, which replay
skips. -/
abbrev LogLine := Option AnalyticsEvent

/-- `log_analytics`: serialize one event and append it as one line. -/
def log_analytics (file : List LogLine) (e : AnalyticsEvent) :
    List LogLine :=
  file ++ [some e]

/-- `export_analytics` (`/analytics/export`): read every line in file
order, decode it, skip lines that fail to decode, and return the decoded
events as-is. -/
def export_analytics (file : List LogLine) : List AnalyticsEvent :=
  file.filterMap id

/-! ### Demonstration values used by the concrete instances below -/

def wAdd1 : WRecord :=
  { device_id := "d1", media_type := "movie", media_id := "42"
    media_title := some "M", action := "add", timestamp := "t1" }

def wRem1 : WRecord :=
  { device_id := "d1", media_type := "movie", media_id := "42"
    media_title := none, action := "remove", timestamp := "t2" }

def wOther : WRecord :=
  { device_id := "d2", media_type := "tv", media_id := "7"
    media_title := some "S", action := "add", timestamp := "t3" }

/-- C1: for every device and every action log, `get_watchlist_items`
equals the left fold, in append order, over the records whose `device_id`
matches, where an add sets `items[key]` to the record and a remove deletes
the key; a remove of an absent key is a no-op, and re-adding after a
remove leaves the key present with the latest add record. -/
theorem get_watchlist_items_spec (device_id : String) (log : List WRecord) :
    get_watchlist_items device_id log = watchlistFold device_id log
  ∧ (∀ (items : List (String × WRecord)) (r : WRecord),
      r.action = "remove" → dictGet items (mediaKey r) = none →
      watchlistStep items r = items)
  ∧ (∀ r : WRecord, r.device_id = device_id → r.action = "add" →
      dictGet (get_watchlist_items device_id (log ++ [r])) (mediaKey r)
        = some r) := by
  refine ⟨get_watchlist_items_eq_fold device_id log, ?_, ?_⟩
  · intro items r hact habs
    have hne : ¬ r.action = "add" := by
      rw [hact]; decide
    simp only [watchlistStep, hne, if_false, hact, if_true, if_neg hne,
      if_pos rfl]
    exact dictPop_of_absent items (mediaKey r) habs
  · intro r hdev hact
    unfold get_watchlist_items
    rw [List.foldl_append]
    simp only [List.foldl_cons, List.foldl_nil]
    rw [applyRecord, if_pos hdev, if_pos hact]
    exact dictGet_dictSet_self _ (mediaKey (show WRecord from r)) r

/-- Concrete instance of `get_watchlist_items_spec`: add then remove for
device d1, the remove-of-absent no-op, and re-adding after a remove. -/
theorem get_watchlist_items_spec_witness :
    get_watchlist_items "d1" [wAdd1, wRem1] = watchlistFold "d1" [wAdd1, wRem1]
  ∧ watchlistStep [] wRem1 = []
  ∧ dictGet (get_watchlist_items "d1" ([wAdd1, wRem1] ++ [wAdd1]))
      (mediaKey wAdd1) = some wAdd1 :=
  ⟨(get_watchlist_items_spec "d1" [wAdd1, wRem1]).1,
   (get_watchlist_items_spec "d1" [wAdd1, wRem1]).2.1 [] wRem1 (by decide)
     (by decide),
   (get_watchlist_items_spec "d1" [wAdd1, wRem1]).2.2 wAdd1 (by decide)
     (by decide)⟩

/-- C10: the projection for a device depends only on the subsequence of
log records carrying that `device_id`: logs agreeing on that subsequence
yield the same projection, and appending a record of another device
changes neither the projection nor the membership check nor the listing. -/
theorem watchlist_noninterference (device_id : String) :
    (∀ log1 log2 : List WRecord,
      log1.filter (fun r => r.device_id == device_id)
        = log2.filter (fun r => r.device_id == device_id) →
      get_watchlist_items device_id log1 = get_watchlist_items device_id log2)
  ∧ (∀ (log : List WRecord) (r : WRecord), r.device_id ≠ device_id →
      get_watchlist_items device_id (log ++ [r])
        = get_watchlist_items device_id log
      ∧ (∀ mt mid, watchlist_check device_id mt mid (log ++ [r])
          = watchlist_check device_id mt mid log)
      ∧ watchlist_list device_id (log ++ [r])
          = watchlist_list device_id log) := by
  constructor
  · intro log1 log2 hfilter
    rw [get_watchlist_items_eq_fold, get_watchlist_items_eq_fold]
    unfold watchlistFold
    rw [hfilter]
  · intro log r hdev
    have hproj : get_watchlist_items device_id (log ++ [r])
        = get_watchlist_items device_id log := by
      unfold get_watchlist_items
      rw [List.foldl_append]
      simp only [List.foldl_cons, List.foldl_nil]
      rw [applyRecord, if_neg hdev]
    refine ⟨hproj, ?_, ?_⟩
    · intro mt mid
      unfold watchlist_check
      rw [hproj]
    · unfold watchlist_list
      rw [hproj]

/-- Concrete instance of `watchlist_noninterference`: a log for d2 is
invisible to d1's projection, membership check and listing. -/
theorem watchlist_noninterference_witness :
    get_watchlist_items "d1" ([wAdd1] ++ [wOther])
      = get_watchlist_items "d1" [wAdd1]
  ∧ watchlist_check "d1" "tv" "7" ([wAdd1] ++ [wOther])
      = watchlist_check "d1" "tv" "7" [wAdd1]
  ∧ watchlist_list "d1" ([wAdd1] ++ [wOther]) = watchlist_list "d1" [wAdd1] :=
  ⟨((watchlist_noninterference "d1").2 [wAdd1] wOther (by decide)).1,
   ((watchlist_noninterference "d1").2 [wAdd1] wOther (by decide)).2.1 "tv" "7",
   ((watchlist_noninterference "d1").2 [wAdd1] wOther (by decide)).2.2⟩

theorem resolveFresh_adapterCalled (c : UrlCache) (now : Int) (key : String)
    (adapter : AdapterOutcome) :
    (resolveFresh c now key adapter).adapterCalled = true := by
  cases adapter with
  | procFail stderr => rfl
  | timedOut => rfl
  | badJson => rfl
  | parsed info =>
      unfold resolveFresh
      by_cases h : falsyS (pickUrl info)
      · simp [h]
      · simp [h]

/-- C2: an entry written at `t0` is served (retagged as a cache hit) at
every `t` with `t - t0 < CACHE_DURATION`, and is absent once
`CACHE_DURATION ≤ t - t0` or when no entry exists; in either absent case
`get_video_url` bypasses the cache and invokes the resolver. -/
theorem cache_ttl_contract (c : UrlCache) (k : String) (v : RespData)
    (t0 t : Int) :
    (t - t0 < CACHE_DURATION → cache_get (cache_put c k t0 v) k t = some v)
  ∧ (CACHE_DURATION ≤ t - t0 → cache_get (cache_put c k t0 v) k t = none)
  ∧ (dictGet c k = none → cache_get c k t = none)
  ∧ (∀ video_id quality adapter,
      cache_get c (cache_key video_id quality) t = none →
      (get_video_url c t video_id quality adapter).adapterCalled = true)
  ∧ (∀ video_id quality adapter d,
      cache_get c (cache_key video_id quality) t = some d →
      (get_video_url c t video_id quality adapter).result
          = .ok { d with cache_hit := true }
      ∧ (get_video_url c t video_id quality adapter).adapterCalled
          = false) := by
  refine ⟨?_, ?_, ?_, ?_, ?_⟩
  · intro hfresh
    unfold cache_get cache_put
    rw [dictGet_dictSet_self]
    simp [hfresh]
  · intro hstale
    unfold cache_get cache_put
    rw [dictGet_dictSet_self]
    simp [not_lt.mpr hstale]
  · intro habs
    unfold cache_get
    rw [habs]
  · intro video_id quality adapter habs
    unfold cache_get at habs
    simp only [get_video_url]
    cases hd : dictGet c (cache_key video_id quality) with
    | none =>
        simp only [hd]
        exact resolveFresh_adapterCalled _ _ _ _
    | some p =>
        obtain ⟨te, de⟩ := p
        rw [hd] at habs
        by_cases hfresh : t - te < CACHE_DURATION
        · simp [hfresh] at habs
        · simp only [hd, hfresh, if_false]
          exact resolveFresh_adapterCalled _ _ _ _
  · intro video_id quality adapter d hhit
    unfold cache_get at hhit
    simp only [get_video_url]
    cases hd : dictGet c (cache_key video_id quality) with
    | none => rw [hd] at hhit; exact absurd hhit (by simp)
    | some p =>
        obtain ⟨te, de⟩ := p
        rw [hd] at hhit
        by_cases hfresh : t - te < CACHE_DURATION
        · simp only [hfresh, if_true] at hhit
          obtain rfl : de = d := by simpa using hhit
          simp [hd, hfresh]
        · simp [hfresh] at hhit

def demoResp : RespData :=
  { url := "http://u", title := "T", duration := some 100
    thumbnail := none, quality := some 720, cache_hit := false
    channel := none, view_count := none, like_count := none
    upload_date := none, categories := [], tags := [] }

/-- Concrete instance of `cache_ttl_contract`: a fresh entry is a hit ten
seconds after insertion, absent 5000 seconds after, and a cold cache sends
`get_video_url` to the resolver. -/
theorem cache_ttl_contract_witness :
    cache_get (cache_put [] (cache_key "vid12" "best") 0 demoResp)
      (cache_key "vid12" "best") 10 = some demoResp
  ∧ cache_get (cache_put [] (cache_key "vid12" "best") 0 demoResp)
      (cache_key "vid12" "best") 5000 = none
  ∧ cache_get [] (cache_key "vid12" "best") 10 = none
  ∧ (get_video_url [] 10 "vid12" "best" .timedOut).adapterCalled = true
  ∧ (get_video_url (cache_put [] (cache_key "vid12" "best") 0 demoResp)
      10 "vid12" "best" .timedOut).result
        = .ok { demoResp with cache_hit := true }
  ∧ (get_video_url (cache_put [] (cache_key "vid12" "best") 0 demoResp)
      10 "vid12" "best" .timedOut).adapterCalled = false :=
  ⟨(cache_ttl_contract [] (cache_key "vid12" "best") demoResp 0 10).1
     (by decide),
   (cache_ttl_contract [] (cache_key "vid12" "best") demoResp 0 5000).2.1
     (by decide),
   (cache_ttl_contract [] (cache_key "vid12" "best") demoResp 0 10).2.2.1
     rfl,
   (cache_ttl_contract [] (cache_key "vid12" "best") demoResp 0 10).2.2.2.1
     "vid12" "best" .timedOut rfl,
   ((cache_ttl_contract (cache_put [] (cache_key "vid12" "best") 0 demoResp)
       (cache_key "vid12" "best") demoResp 0 10).2.2.2.2
     "vid12" "best" .timedOut demoResp (by decide)).1,
   ((cache_ttl_contract (cache_put [] (cache_key "vid12" "best") 0 demoResp)
       (cache_key "vid12" "best") demoResp 0 10).2.2.2.2
     "vid12" "best" .timedOut demoResp (by decide)).2⟩

theorem resolveFresh_failed_cache (c : UrlCache) (now : Int) (key : String)
    (adapter : AdapterOutcome) (msg : String)
    (h : (resolveFresh c now key adapter).result = .failed msg) :
    (resolveFresh c now key adapter).cache = c := by
  cases adapter with
  | procFail stderr => rfl
  | timedOut => rfl
  | badJson => rfl
  | parsed info =>
      unfold resolveFresh at h ⊢
      by_cases hf : falsyS (pickUrl info)
      · simp [hf]
      · simp [hf] at h

theorem resolveFresh_ok_cache (c : UrlCache) (now : Int) (key : String)
    (adapter : AdapterOutcome) (r : RespData)
    (h : (resolveFresh c now key adapter).result = .ok r) :
    (resolveFresh c now key adapter).cache = cache_put c key now r := by
  cases adapter with
  | procFail stderr => simp [resolveFresh] at h
  | timedOut => simp [resolveFresh] at h
  | badJson => simp [resolveFresh] at h
  | parsed info =>
      unfold resolveFresh at h ⊢
      by_cases hf : falsyS (pickUrl info)
      · simp [hf] at h
      · simp only [hf, Bool.false_eq_true, if_false] at h ⊢
        obtain rfl : _ = r := by simpa using h
        rfl

/-- C3: a failed resolution (adapter failure, timeout, parse failure, or
no usable URL) leaves the `url_cache` exactly as it was — no entry
inserted or updated — while a successful fresh resolution writes the
response under the computed cache key. -/
theorem resolution_failure_not_cached (c : UrlCache) (now : Int)
    (video_id quality : String) (adapter : AdapterOutcome) :
    (∀ msg, (get_video_url c now video_id quality adapter).result
        = .failed msg →
      (get_video_url c now video_id quality adapter).cache = c)
  ∧ (∀ r, (get_video_url c now video_id quality adapter).result = .ok r →
      r.cache_hit = false →
      (get_video_url c now video_id quality adapter).cache
        = cache_put c (cache_key video_id quality) now r) := by
  constructor
  · intro msg hfail
    simp only [get_video_url] at hfail ⊢
    cases hd : dictGet c (cache_key video_id quality) with
    | none =>
        simp only [hd] at hfail ⊢
        exact resolveFresh_failed_cache _ _ _ _ _ hfail
    | some p =>
        obtain ⟨te, de⟩ := p
        by_cases hfresh : now - te < CACHE_DURATION
        · simp [hd, hfresh] at hfail
        · simp only [hd, hfresh, if_false] at hfail ⊢
          exact resolveFresh_failed_cache _ _ _ _ _ hfail
  · intro r hok hmiss
    simp only [get_video_url] at hok ⊢
    cases hd : dictGet c (cache_key video_id quality) with
    | none =>
        simp only [hd] at hok ⊢
        exact resolveFresh_ok_cache _ _ _ _ _ hok
    | some p =>
        obtain ⟨te, de⟩ := p
        by_cases hfresh : now - te < CACHE_DURATION
        · simp only [hd, hfresh, if_true] at hok
          obtain rfl : _ = r := by simpa using hok
          simp at hmiss
        · simp only [hd, hfresh, if_false] at hok ⊢
          exact resolveFresh_ok_cache _ _ _ _ _ hok

def infoGood : Info :=
  { url := some "http://u", requested_formats := [], title := some "T"
    duration := some 100, thumbnail := some "th", height := some 720
    channel := some "ch", view_count := some 5, like_count := some 1
    upload_date := some "2024", categories := ["Film"], tags := ["t"] }

def respGood : RespData :=
  { url := "http://u", title := "T", duration := some 100
    thumbnail := some "th", quality := some 720, cache_hit := false
    channel := some "ch", view_count := some 5, like_count := some 1
    upload_date := some "2024", categories := ["Film"], tags := ["t"] }

/-- Concrete instance of `resolution_failure_not_cached`: a timeout leaves
an empty cache empty; a successful parse of `infoGood` writes `respGood`
under the key. -/
theorem resolution_failure_not_cached_witness :
    (get_video_url [] 0 "vid12" "best" .timedOut).cache = []
  ∧ (get_video_url [] 0 "vid12" "best" (.parsed infoGood)).cache
      = cache_put [] (cache_key "vid12" "best") 0 respGood :=
  ⟨(resolution_failure_not_cached [] 0 "vid12" "best" .timedOut).1
     "Request timed out" (by decide),
   (resolution_failure_not_cached [] 0 "vid12" "best" (.parsed infoGood)).2
     respGood (by decide) (by decide)⟩

/-- C4: a `video_id` of length outside `[5, 20]` is answered with the
validation error before anything happens — the cache is untouched, the
resolver is not invoked and no analytics record is appended — while any
id of length within `[5, 20]` passes this validation. -/
theorem stream_rejects_bad_id (video_id quality : String) (c : UrlCache)
    (now : Int) (adapter : AdapterOutcome) :
    (video_id.length < 5 ∨ 20 < video_id.length →
      stream video_id quality c now adapter =
        { resp := .invalidId, cache := c, adapterCalled := false
          logAppends := [] })
  ∧ (5 ≤ video_id.length → video_id.length ≤ 20 →
      (stream video_id quality c now adapter).resp ≠ .invalidId) := by
  constructor
  · intro hbad
    have hcond : (video_id.length < 5 || video_id.length > 20) = true := by
      rcases hbad with h | h
      · simp [h]
      · simp [Nat.lt_iff_add_one_le.mp h, h]
    unfold stream
    rw [hcond]
    rfl
  · intro hlo hhi
    have hcond : (video_id.length < 5 || video_id.length > 20) = false := by
      simp only [Bool.or_eq_false_iff, decide_eq_false_iff_not, not_lt]
      exact ⟨hlo, hhi⟩
    unfold stream
    rw [hcond]
    simp only [Bool.false_eq_true, if_false]
    cases h : (get_video_url c now video_id quality adapter).result with
    | failed msg => simp [h]
    | ok r => simp [h]

/-- Concrete instance of `stream_rejects_bad_id`: the 3-character id
`"abc"` is rejected with no side effect, the 6-character id `"valid6"`
passes validation. -/
theorem stream_rejects_bad_id_witness :
    stream "abc" "best" [] 0 .timedOut =
      { resp := .invalidId, cache := [], adapterCalled := false
        logAppends := [] }
  ∧ (stream "valid6" "best" [] 0 .timedOut).resp ≠ .invalidId :=
  ⟨(stream_rejects_bad_id "abc" "best" [] 0 .timedOut).1 (by decide),
   (stream_rejects_bad_id "valid6" "best" [] 0 .timedOut).2 (by decide)
     (by decide)⟩

def fmtNoAV : Fmt :=
  { acodec := some "none", vcodec := some "avc1", url := some "u0" }

def fmtAVnoUrl : Fmt :=
  { acodec := some "mp4a", vcodec := some "avc1", url := none }

def infoTwoFmts : Info :=
  { url := none, requested_formats := [fmtNoAV, fmtAVnoUrl]
    title := some "T", duration := none, thumbnail := none
    height := some 720, channel := none, view_count := none
    like_count := none, upload_date := none, categories := [], tags := [] }

def infoOnlyBadUrl : Info :=
  { url := none, requested_formats := [fmtAVnoUrl]
    title := some "T", duration := none, thumbnail := none
    height := some 720, channel := none, view_count := none
    like_count := none, upload_date := none, categories := [], tags := [] }

/-- On the payload `infoTwoFmts` — no direct URL, a first candidate
without audio, a second audio+video candidate carrying no URL — the code
selects the first candidate's URL `"u0"`, while the selection rule as the
claim words it (`pickUrl_specWords`) selects the audio+video candidate's
absent URL. -/
theorem pickUrl_deviates_from_claim :
    pickUrl infoTwoFmts = some "u0"
  ∧ pickUrl_specWords infoTwoFmts = none
  ∧ pickUrl infoTwoFmts ≠ pickUrl_specWords infoTwoFmts := by decide

/-- C5 (amended): with no direct URL and a nonempty candidate list, the
code selects the URL of the first audio+video candidate when that URL is
usable (non-absent, non-empty); otherwise — no audio+video candidate, or
its URL unusable — it falls back to the URL of the first candidate; and
when the selected URL is still unusable, `get_video_url` returns the
`"No video URL found"` error. -/
theorem pickUrl_selection_amended (info : Info) (g0 : Fmt)
    (grest : List Fmt) (h1 : falsyS info.url = true)
    (h2 : info.requested_formats = g0 :: grest) :
    pickUrl info =
      (match (g0 :: grest).find? hasAV with
        | some fa => if falsyS fa.url then g0.url else fa.url
        | none => g0.url)
  ∧ (falsyS (pickUrl info) = true → ∀ (now : Int) (video_id quality : String),
      (get_video_url [] now video_id quality (.parsed info)).result
        = .failed "No video URL found") := by
  constructor
  · simp only [pickUrl, h1, h2, if_true]
    cases hfind : (g0 :: grest).find? hasAV with
    | none => simp [h1]
    | some fa => simp
  · intro hnone now video_id quality
    simp only [get_video_url, dictGet, resolveFresh, hnone, if_true]

/-- Concrete instance of `pickUrl_selection_amended`: the two-candidate
payload resolves to the fallback URL `"u0"`; a payload whose only
candidate has no URL makes `get_video_url` fail with
`"No video URL found"`. -/
theorem pickUrl_selection_amended_witness :
    pickUrl infoTwoFmts =
      (match (fmtNoAV :: [fmtAVnoUrl]).find? hasAV with
        | some fa => if falsyS fa.url then fmtNoAV.url else fa.url
        | none => fmtNoAV.url)
  ∧ (get_video_url [] 0 "vid12" "best" (.parsed infoOnlyBadUrl)).result
      = .failed "No video URL found" :=
  ⟨(pickUrl_selection_amended infoTwoFmts fmtNoAV [fmtAVnoUrl] (by decide)
      (by decide)).1,
   (pickUrl_selection_amended infoOnlyBadUrl fmtAVnoUrl [] (by decide)
      (by decide)).2 (by decide) 0 "vid12" "best"⟩

/-- C6: the engagement level computed at event-append time is
`completed` exactly on `p ≥ 90`, `high` exactly on `50 ≤ p < 90`,
`medium` exactly on `25 ≤ p < 50`, `low` exactly on `10 ≤ p < 25`, and
`skipped` exactly on `p < 10`, so each boundary value maps to the higher
bucket; `log_event` stores this classification of the event's
`watch_percentage`. -/
theorem engagement_level_buckets (p : ℚ) :
    (engagement_level p = "completed" ↔ 90 ≤ p)
  ∧ (engagement_level p = "high" ↔ 50 ≤ p ∧ p < 90)
  ∧ (engagement_level p = "medium" ↔ 25 ≤ p ∧ p < 50)
  ∧ (engagement_level p = "low" ↔ 10 ≤ p ∧ p < 25)
  ∧ (engagement_level p = "skipped" ↔ p < 10)
  ∧ (log_event { event := none, video_duration := none, watch_time := none
                 watch_percentage := some p }).engagement_level
      = engagement_level p := by
  refine ⟨?_, ?_, ?_, ?_, ?_, rfl⟩ <;>
    · unfold engagement_level
      split_ifs with h1 h2 h3 h4 <;>
        constructor <;> intro hx <;>
          first
            | rfl
            | (exact absurd hx (by decide))
            | (exact le_trans (by norm_num) h1)
            | (constructor <;> linarith)
            | linarith

theorem foldl_log_analytics (events : List AnalyticsEvent)
    (file0 : List LogLine) :
    events.foldl log_analytics file0 = file0 ++ events.map some := by
  induction events generalizing file0 with
  | nil => simp
  | cons e rest ih =>
      simp only [List.foldl_cons, List.map_cons]
      rw [ih]
      simp [log_analytics]

/-- C7: appending any list of valid records to the analytics log and then
exporting returns exactly those records, deserialized, in append order —
on top of whatever the prior file contents exported to — and in
particular, from an empty file, exactly the appended list. -/
theorem export_analytics_roundtrip (events : List AnalyticsEvent)
    (file0 : List LogLine) :
    export_analytics (events.foldl log_analytics file0)
      = export_analytics file0 ++ events
  ∧ export_analytics (events.foldl log_analytics []) = events := by
  have key : ∀ g0 : List LogLine,
      export_analytics (events.foldl log_analytics g0)
        = export_analytics g0 ++ events := by
    intro g0
    rw [foldl_log_analytics]
    unfold export_analytics
    rw [List.filterMap_append]
    congr 1
    rw [List.filterMap_map]
    simp
  exact ⟨key file0, by rw [key []]; rfl⟩

/-- The `cache_key` built by `get_video_url` is NOT injective on
`(identifier, quality)` pairs: two distinct pairs (both identifiers of
valid stream length) yield the same key, because the `"_"` separator also
occurs inside identifiers and quality strings. -/
theorem cache_key_collision :
    cache_key "abc_d" "e_f" = cache_key "abc_d_e" "f"
  ∧ ¬("abc_d" = "abc_d_e" ∧ "e_f" = "f") := by decide

theorem append_last_sep {l1 m1 l2 m2 : List Char}
    (hm1 : ('_' : Char) ∉ m1) (hm2 : ('_' : Char) ∉ m2)
    (h : l1 ++ '_' :: m1 = l2 ++ '_' :: m2) : l1 = l2 ∧ m1 = m2 := by
  induction l1 generalizing l2 with
  | nil =>
      cases l2 with
      | nil => simpa using h
      | cons c l2' =>
          simp only [List.nil_append, List.cons_append, List.cons.injEq]
            at h
          exact absurd (h.2 ▸ List.mem_append_right l2'
            (List.mem_cons_self '_' m2)) hm1
  | cons c l1' ih =>
      cases l2 with
      | nil =>
          simp only [List.nil_append, List.cons_append, List.cons.injEq]
            at h
          exact absurd (h.2.symm ▸ List.mem_append_right l1'
            (List.mem_cons_self '_' m1)) hm2
      | cons c2 l2' =>
          simp only [List.cons_append, List.cons.injEq] at h
          obtain ⟨hc, ht⟩ := h
          obtain ⟨hl, hm⟩ := ih ht
          exact ⟨by rw [hc, hl], hm⟩

/-- C8 (amended): the cache key determines exactly the concatenation
`identifier ++ "_" ++ quality`; it is unique per `(identifier, quality)`
pair whenever the quality selectors contain no underscore — which holds
for every recognized quality value — though pairs with underscored parts
can collide (`cache_key_collision`). -/
theorem cache_key_unique_of_plain_quality (id1 q1 id2 q2 : String)
    (h1 : ('_' : Char) ∉ q1.data) (h2 : ('_' : Char) ∉ q2.data) :
    cache_key id1 q1 = cache_key id2 q2 ↔ id1 = id2 ∧ q1 = q2 := by
  constructor
  · intro h
    unfold cache_key at h
    rw [String.ext_iff] at h
    simp only [String.data_append,
      show ("_" : String).data = ['_'] from rfl,
      List.append_assoc, List.singleton_append] at h
    obtain ⟨hid, hq⟩ := append_last_sep h1 h2 h
    exact ⟨String.ext hid, String.ext hq⟩
  · rintro ⟨rfl, rfl⟩
    rfl

/-- Concrete instance of `cache_key_unique_of_plain_quality`: for the
underscore-free qualities `"best"` and `"720"`, equal keys force equal
pairs and distinct pairs give distinct keys. -/
theorem cache_key_unique_witness :
    (cache_key "vid12" "best" = cache_key "vid12" "best" ↔
      "vid12" = "vid12" ∧ "best" = "best")
  ∧ (cache_key "vid12" "best" = cache_key "vid13" "720" ↔
      "vid12" = "vid13" ∧ "best" = "720") :=
  ⟨cache_key_unique_of_plain_quality "vid12" "best" "vid12" "best"
     (by decide) (by decide),
   cache_key_unique_of_plain_quality "vid12" "best" "vid13" "720"
     (by decide) (by decide)⟩

theorem truthyQ_iff (o : Option ℚ) :
    truthyQ o = true ↔ ∃ x, o = some x ∧ x ≠ 0 := by
  cases o with
  | none => simp [truthyQ]
  | some x => simp [truthyQ]

/-- C9: `log_event` computes `completion_rate` only when `video_duration`
and `watch_time` are both present and non-zero — so the division never
divides by zero — and an event with either field absent, null or `0` is
logged (status `"logged"`) without a `completion_rate` field. -/
theorem completion_rate_guard (p : PlaybackPayload) :
    ((log_event p).completion_rate.isSome = true →
      ∃ d w : ℚ, p.video_duration = some d ∧ d ≠ 0
        ∧ p.watch_time = some w ∧ w ≠ 0
        ∧ (log_event p).completion_rate = some (round2 (w / d * 100)))
  ∧ (p.video_duration = none ∨ p.video_duration = some 0 ∨
      p.watch_time = none ∨ p.watch_time = some 0 →
      (log_event p).completion_rate = none
      ∧ (log_event p).status = "logged") := by
  constructor
  · intro hsome
    by_cases hc : (truthyQ p.video_duration && truthyQ p.watch_time) = true
    · obtain ⟨hd, hw⟩ := Bool.and_eq_true_iff.mp hc
      obtain ⟨d, hdv, hd0⟩ := (truthyQ_iff _).mp hd
      obtain ⟨w, hwv, hw0⟩ := (truthyQ_iff _).mp hw
      refine ⟨d, w, hdv, hd0, hwv, hw0, ?_⟩
      simp only [log_event, hc, if_true]
      rw [hdv, hwv]
      rfl
    · exfalso
      simp only [log_event, hc] at hsome
      simp at hsome
  · intro hcase
    have hfalse : (truthyQ p.video_duration && truthyQ p.watch_time)
        = false := by
      rcases hcase with h | h | h | h <;> simp [truthyQ, h]
    exact ⟨by simp [log_event, hfalse], rfl⟩

def payNoDuration : PlaybackPayload :=
  { event := some "play_end", video_duration := none
    watch_time := some 45, watch_percentage := some 30 }

def payGood : PlaybackPayload :=
  { event := some "play_end", video_duration := some 150
    watch_time := some 45, watch_percentage := some 30 }

/-- Concrete instance of `completion_rate_guard`: a payload with no
`video_duration` is logged without a completion rate; a payload with
duration 150 and watch time 45 gets one, with a non-zero divisor. -/
theorem completion_rate_guard_witness :
    ((log_event payNoDuration).completion_rate = none
      ∧ (log_event payNoDuration).status = "logged")
  ∧ (∃ d w : ℚ, payGood.video_duration = some d ∧ d ≠ 0
      ∧ payGood.watch_time = some w ∧ w ≠ 0
      ∧ (log_event payGood).completion_rate = some (round2 (w / d * 100))) :=
  ⟨(completion_rate_guard payNoDuration).2 (Or.inl rfl),
   (completion_rate_guard payGood).1 (by decide)⟩
